import Mathlib

/-!
Verification of the Supercoach 2026 roster allocator against its
natural-language specification.

The development shallowly embeds `team_optimizer_budget_alloc.py`
(together with the configuration in `config.py`) in Lean.  Candidate
rows become a `Player` structure, pandas DataFrames become lists of
rows, money and score columns become rationals, and every Python dict
subscript that can raise `KeyError` becomes an `Option`/`Except`
lookup.  Line numbers in doc comments refer to
`team_optimizer_budget_alloc.py` unless another file is named.

A central fact drives many results: `config.POSITION_REQUIREMENTS`
defines exactly the four keys DEF, MID, RUC, FWD, while
`optimize_team` reads `config.POSITION_REQUIREMENTS['BENCH']` (line
48) before any candidate is selected, so every run of the optimizer
raises `KeyError` and no roster is ever produced.
-/

namespace Supercoach

/-- The four player categories: exactly the keys of
`config.POSITION_REQUIREMENTS` (config.py lines 14-19). -/
inductive Pos where
  | DEF
  | MID
  | RUC
  | FWD
deriving DecidableEq, Repr

/-- The dict key string of a category, as the source spells it. -/
def Pos.key : Pos → String
  | .DEF => "DEF"
  | .MID => "MID"
  | .RUC => "RUC"
  | .FWD => "FWD"

/-- One candidate row of the players DataFrame, restricted to the
columns the allocator reads: identifier, position, price, the
predicted performance value and the composite adjusted value. -/
structure Player where
  player_id : Nat
  position : Pos
  price : ℚ
  predicted_score : ℚ
  adjusted_value : ℚ
deriving DecidableEq, Repr

/-- One entry of `config.POSITION_REQUIREMENTS`. -/
structure PosReq where
  min : Nat
  max : Nat
  on_field : Nat
deriving DecidableEq, Repr

/-- `config.SALARY_CAP` (config.py line 6). -/
def SALARY_CAP : ℚ := 10000000

/-- `config.TEAM_SIZE` (config.py line 7). -/
def TEAM_SIZE : Nat := 30

/-- `config.BENCH_SIZE` (config.py line 25). -/
def BENCH_SIZE : Nat := 8

/-- `config.POSITION_REQUIREMENTS` (config.py lines 14-19): an
association list with exactly the four keys DEF, MID, RUC, FWD.
There is no 'BENCH' entry. -/
def POSITION_REQUIREMENTS : List (String × PosReq) :=
  [("DEF", ⟨6, 9, 6⟩), ("MID", ⟨8, 11, 8⟩), ("RUC", ⟨2, 4, 2⟩), ("FWD", ⟨6, 9, 6⟩)]

/-- Python dict read `config.POSITION_REQUIREMENTS[k]`, as a partial
lookup. -/
def reqLookup (k : String) : Option PosReq :=
  (POSITION_REQUIREMENTS.find? (fun e => e.1 == k)).map (fun e => e.2)

/-- The requirements of one of the four known categories (total view;
agrees with `reqLookup` on the four keys, see `reqLookup_key`). -/
def posReq : Pos → PosReq
  | .DEF => ⟨6, 9, 6⟩
  | .MID => ⟨8, 11, 8⟩
  | .RUC => ⟨2, 4, 2⟩
  | .FWD => ⟨6, 9, 6⟩

theorem reqLookup_key (p : Pos) : reqLookup p.key = some (posReq p) := by
  cases p <;> rfl

/-- Errors.  The only exception the allocator itself can raise is a
Python `KeyError` on a dict subscript.  The remaining constructors are
the error taxonomy named by the specification (§7); the source defines
no `InvalidStrategy`, `InsufficientCandidates` or `BudgetInfeasible`
exception classes anywhere, and the constructors are present so that
statements can express that those errors are never produced. -/
inductive Err where
  | keyError (key : String)
  | invalidStrategy
  | insufficientCandidates
  | budgetInfeasible
deriving DecidableEq, Repr

/-- Dict subscript on `config.POSITION_REQUIREMENTS`, raising
`KeyError` for an absent key, as Python does. -/
def keyGet (k : String) : Except Err PosReq :=
  match reqLookup k with
  | some r => .ok r
  | none => .error (.keyError k)

/-- Stable insertion of one element: `a` goes in front of the first
`b` with `le a b`. -/
def insertLe (le : α → α → Bool) (a : α) : List α → List α
  | [] => [a]
  | b :: l => if le a b then a :: b :: l else b :: insertLe le a l

/-- Stable insertion sort by a Boolean comparison.  `sort_values`,
`nsmallest` and `nlargest` of pandas are modelled with it: for
`nsmallest`/`nlargest` (documented `keep='first'`) the model is exact;
for `sort_values` (whose tie order is implementation-defined) the
stable order is the modelling choice. -/
def sortLe (le : α → α → Bool) : List α → List α
  | [] => []
  | a :: l => insertLe le a (sortLe le l)

/-- Ascending sort by price (`sort_values('price')`, `nsmallest` by
price). -/
def sortPriceAsc (l : List Player) : List Player :=
  sortLe (fun a b => decide (a.price ≤ b.price)) l

/-- Descending sort by a numeric column (`sort_values(col,
ascending=False)`). -/
def sortByDesc (key : Player → ℚ) (l : List Player) : List Player :=
  sortLe (fun a b => decide (key b ≤ key a)) l

/-- Lines 33-38 (Objective Selector): the per-candidate objective for a
strategy name.  'value' and 'high_score' are recognised explicitly;
every other name, recognised or not, takes the `else` branch with the
balanced blend. -/
def objective (strategy : String) (p : Player) : ℚ :=
  if strategy = "value" then p.adjusted_value
  else if strategy = "high_score" then p.predicted_score
  else p.predicted_score * 0.7 + p.adjusted_value * 0.3

/-- Lines 43-45: a category's minimum feasible cost,
`df[df['position'] == pos].nsmallest(required, 'price')['price'].sum()`.
When fewer than `required` candidates exist, `nsmallest` returns all of
them and the sum is over that shorter list; no error is raised. -/
def minFeasibleCost (df : List Player) (pos : Pos) (required : Nat) : ℚ :=
  ((sortPriceAsc (df.filter (fun p => p.position == pos))).take required
    |>.map Player.price).sum

/-- Line 49: the reserve ('BENCH') minimum feasible cost over the full
pool, `df.nsmallest(bench_needed, 'price')['price'].sum()`. -/
def benchMinCost (df : List Player) (benchNeeded : Nat) : ℚ :=
  ((sortPriceAsc df).take benchNeeded |>.map Player.price).sum

/-- The dict literal of lines 55-61 (`position_budgets`). -/
structure PositionBudgets where
  MID : ℚ
  DEF : ℚ
  FWD : ℚ
  RUC : ℚ
  BENCH : ℚ
deriving DecidableEq, Repr

/-- Subscript `position_budgets[position]` for the four categories. -/
def PositionBudgets.ofPos (b : PositionBudgets) : Pos → ℚ
  | .MID => b.MID
  | .DEF => b.DEF
  | .FWD => b.FWD
  | .RUC => b.RUC

/-- Lines 41-61 (Budget Planner), with the salary cap as an explicit
parameter (the source reads the module constant `config.SALARY_CAP` at
line 52).  Per-category minimum feasible costs are computed for DEF,
MID, RUC, FWD; then line 48 reads
`config.POSITION_REQUIREMENTS['BENCH']['min']`, which raises
`KeyError` because the dict has no 'BENCH' key.  On (hypothetical)
success the planner returns the proportional ceilings of lines 55-61
together with `bench_needed`. -/
def budgetPlanner (cap : ℚ) (df : List Player) :
    Except Err (PositionBudgets × Nat) := do
  let mDEF := minFeasibleCost df .DEF (← keyGet "DEF").min
  let mMID := minFeasibleCost df .MID (← keyGet "MID").min
  let mRUC := minFeasibleCost df .RUC (← keyGet "RUC").min
  let mFWD := minFeasibleCost df .FWD (← keyGet "FWD").min
  let benchNeeded := (← keyGet "BENCH").min
  let mBENCH := benchMinCost df benchNeeded
  let totalMin := mDEF + mMID + mRUC + mFWD + mBENCH
  let buffer := cap - totalMin
  pure (⟨mMID + buffer * 0.35, mDEF + buffer * 0.25, mFWD + buffer * 0.20,
         mRUC + buffer * 0.15, mBENCH + buffer * 0.05⟩, benchNeeded)

/-- The running selection state shared by the fill phases (lines
63-65): the `selected_players` list, the `position_counts` dict and
`total_spent`. -/
structure RunState where
  selected : List Player
  counts : List (String × Nat)
  total_spent : ℚ
deriving DecidableEq, Repr

/-- Line 64: `position_counts = {pos: 0 for pos in
config.POSITION_REQUIREMENTS.keys()}` — four keys, no 'BENCH'. -/
def initCounts : List (String × Nat) :=
  POSITION_REQUIREMENTS.map (fun e => (e.1, 0))

/-- Python `d[k] += 1` on a counts dict: `none` models the `KeyError`
raised when `k` is not a key. -/
def dictIncr (k : String) : List (String × Nat) → Option (List (String × Nat))
  | [] => none
  | e :: l =>
    if e.1 = k then some ((e.1, e.2 + 1) :: l)
    else (dictIncr k l).map (fun l' => e :: l')

/-- Lines 76-84: the ranked pass of the Category Filler.  Walks the
objective-sorted category rows; accepts while `count < required` and
`spent + price` fits the category ceiling; breaks once the quota is
met.  `count` and `spent` are the loop-local counters. -/
def rankedPass (pos : Pos) (required : Nat) (budget : ℚ) :
    List Player → Nat → ℚ → RunState → Except Err (Nat × RunState)
  | [], count, _, st => .ok (count, st)
  | p :: rest, count, spent, st =>
    if count < required ∧ spent + p.price ≤ budget then
      match dictIncr pos.key st.counts with
      | none => .error (.keyError pos.key)
      | some c' =>
        let st' : RunState :=
          ⟨st.selected ++ [p], c', st.total_spent + p.price⟩
        if count + 1 ≥ required then .ok (count + 1, st')
        else rankedPass pos required budget rest (count + 1) (spent + p.price) st'
    else if count ≥ required then .ok (count, st)
    else rankedPass pos required budget rest count spent st

/-- Lines 90-99: the price-ascending fallback pass of the Category
Filler.  Rows whose identifier is already selected are skipped (and,
as in the source, skipping does not reach the `break` test); an
accepted row must fit the remaining global budget `rem`. -/
def fallbackPass (pos : Pos) (required : Nat) :
    List Player → Nat → ℚ → RunState → Except Err (Nat × ℚ × RunState)
  | [], count, rem, st => .ok (count, rem, st)
  | p :: rest, count, rem, st =>
    if (st.selected.map Player.player_id).contains p.player_id then
      fallbackPass pos required rest count rem st
    else if count < required ∧ p.price ≤ rem then
      match dictIncr pos.key st.counts with
      | none => .error (.keyError pos.key)
      | some c' =>
        let st' : RunState :=
          ⟨st.selected ++ [p], c', st.total_spent + p.price⟩
        if count + 1 ≥ required then .ok (count + 1, rem - p.price, st')
        else fallbackPass pos required rest (count + 1) (rem - p.price) st'
    else if count ≥ required then .ok (count, rem, st)
    else fallbackPass pos required rest count rem st

/-- Lines 68-99: fill one category — ranked pass against the category
ceiling, then, if still under quota, the fallback pass against the
remaining global budget (line 88 reads the module salary cap, here the
`cap` parameter). -/
def fillPosition (obj : Player → ℚ) (cap budget : ℚ) (pos : Pos)
    (required : Nat) (df : List Player) (st : RunState) : Except Err RunState :=
  let pos_df := sortByDesc obj (df.filter (fun p => p.position == pos))
  match rankedPass pos required budget pos_df 0 0 st with
  | .error e => .error e
  | .ok (count, st') =>
    if count < required then
      match fallbackPass pos required (sortPriceAsc pos_df) count
          (cap - st'.total_spent) st' with
      | .error e => .error e
      | .ok (_, _, st'') => .ok st''
    else .ok st'

/-- Phase 1 (lines 67-99): the Category Filler runs once per category
in the order MID, DEF, FWD, RUC of line 68, with the per-category
`min` requirement and ceiling read from the dicts. -/
def phase1 (obj : Player → ℚ) (cap : ℚ) (budgets : PositionBudgets)
    (df : List Player) (st : RunState) : Except Err RunState := do
  let rMID ← keyGet "MID"
  let st ← fillPosition obj cap budgets.MID .MID rMID.min df st
  let rDEF ← keyGet "DEF"
  let st ← fillPosition obj cap budgets.DEF .DEF rDEF.min df st
  let rFWD ← keyGet "FWD"
  let st ← fillPosition obj cap budgets.FWD .FWD rFWD.min df st
  let rRUC ← keyGet "RUC"
  fillPosition obj cap budgets.RUC .RUC rRUC.min df st

/-- Lines 107-113: first reserve loop over the unselected rows sorted
by adjusted value descending.  Every acceptance executes
`position_counts['BENCH'] += 1`; this loop has no `break`. -/
def benchLoop1 (benchNeeded : Nat) :
    List Player → Nat → ℚ → RunState → Except Err (Nat × ℚ × RunState)
  | [], bc, bb, st => .ok (bc, bb, st)
  | p :: rest, bc, bb, st =>
    if bc < benchNeeded ∧ p.price ≤ bb then
      match dictIncr "BENCH" st.counts with
      | none => .error (.keyError "BENCH")
      | some c' =>
        benchLoop1 benchNeeded rest (bc + 1) (bb - p.price)
          ⟨st.selected ++ [p], c', st.total_spent + p.price⟩
    else benchLoop1 benchNeeded rest bc bb st

/-- Lines 119-127: second reserve loop over the cheapest unselected
rows; same acceptance test and 'BENCH' counter update, with a `break`
once the bench is full. -/
def benchLoop2 (benchNeeded : Nat) :
    List Player → Nat → ℚ → RunState → Except Err (Nat × ℚ × RunState)
  | [], bc, bb, st => .ok (bc, bb, st)
  | p :: rest, bc, bb, st =>
    if bc < benchNeeded ∧ p.price ≤ bb then
      match dictIncr "BENCH" st.counts with
      | none => .error (.keyError "BENCH")
      | some c' =>
        let st' : RunState :=
          ⟨st.selected ++ [p], c', st.total_spent + p.price⟩
        if bc + 1 ≥ benchNeeded then .ok (bc + 1, bb - p.price, st')
        else benchLoop2 benchNeeded rest (bc + 1) (bb - p.price) st'
    else if bc ≥ benchNeeded then .ok (bc, bb, st)
    else benchLoop2 benchNeeded rest bc bb st

/-- Phase 2 (lines 101-127, Reserve Filler): the bench budget is the
remaining global budget; the preferred pass ranks the unselected rows
by adjusted value descending, and if the bench is still short a
cheapest-first pass runs over the rows not yet selected. -/
def phase2 (cap : ℚ) (benchNeeded : Nat) (df : List Player)
    (st : RunState) : Except Err (Nat × ℚ × RunState) :=
  let benchBudget := cap - st.total_spent
  let selectedIds := st.selected.map Player.player_id
  let remaining :=
    sortByDesc Player.adjusted_value
      (df.filter (fun p => !(selectedIds.contains p.player_id)))
  match benchLoop1 benchNeeded remaining 0 benchBudget st with
  | .error e => .error e
  | .ok (bc, bb, st') =>
    if bc < benchNeeded then
      let remainingIds := st'.selected.map Player.player_id
      let cheapest :=
        sortPriceAsc (df.filter (fun p => !(remainingIds.contains p.player_id)))
      benchLoop2 benchNeeded cheapest bc bb st'
    else .ok (bc, bb, st')

/-- `optimize_team` (lines 17-150), with the salary cap as an explicit
parameter: tag the pool with the strategy objective (lines 30-38), run
the Budget Planner (lines 41-61), then the two fill phases, and return
the selected list (turned into `self.selected_team` at line 130).
Lines 132-148 only print summary statistics and are not modelled (the
position-breakdown loop at lines 144-148 would subscript
`POSITION_REQUIREMENTS['BENCH']` again). -/
def optimizeTeamCap (cap : ℚ) (players_df : List Player)
    (strategy : String) : Except Err (List Player) := do
  let obj := objective strategy
  let (budgets, benchNeeded) ← budgetPlanner cap players_df
  let st0 : RunState := ⟨[], initCounts, 0⟩
  let st1 ← phase1 obj cap budgets players_df st0
  let (_, _, st2) ← phase2 cap benchNeeded players_df st1
  pure st2.selected

/-- `optimize_team` with the configured `config.SALARY_CAP`. -/
def optimizeTeam (players_df : List Player) (strategy : String) :
    Except Err (List Player) :=
  optimizeTeamCap SALARY_CAP players_df strategy

/-- The `TeamOptimizer` object state: `self.selected_team`
(initialised to `None` at line 14). -/
structure Optimizer where
  selectedTeam : Option (List Player)
deriving DecidableEq, Repr

/-- One call of `optimize_team` on a `TeamOptimizer` object: on
success the roster is stored in `self.selected_team` (line 130); an
exception propagates to the caller and leaves the stored team
unchanged. -/
def optimizeStep (o : Optimizer) (players_df : List Player)
    (strategy : String) : Optimizer × Except Err (List Player) :=
  match optimizeTeam players_df strategy with
  | .ok t => (⟨some t⟩, .ok t)
  | .error e => (o, .error e)

/-- Comparison used by `nlargest(n, col)` on index-tagged rows:
`a` comes before `b` when it has the larger key, or an equal key and
the smaller (earlier) index — pandas' documented `keep='first'`. -/
def nlBefore (key : Player → ℚ) (a b : Nat × Player) : Bool :=
  decide (key b.2 < key a.2 ∨ (key a.2 = key b.2 ∧ a.1 ≤ b.1))

/-- `nlargest(n, col)` with `keep='first'` over index-tagged rows. -/
def nlargestFirst (key : Player → ℚ) (n : Nat)
    (rows : List (Nat × Player)) : List (Nat × Player) :=
  (sortLe (nlBefore key) rows).take n

/-- Row order of the partitioning loop (line 159). -/
def LINEUP_ORDER : List Pos := [.DEF, .MID, .RUC, .FWD]

/-- `get_starting_lineup` (lines 152-168, Roster Partitioner): for each
category in turn, the `on_field` quota of rows of the stored team with
the highest `predicted_score` (`nlargest`, ties kept by row order).
Rows are tagged with their DataFrame index, which for
`pd.DataFrame(selected_players)` is the selection order. -/
def getStartingLineup (team : List Player) : List (Nat × Player) :=
  (LINEUP_ORDER.map (fun pos =>
    nlargestFirst Player.predicted_score (posReq pos).on_field
      ((team.enum).filter (fun r => r.2.position == pos)))).flatten

/-- `get_bench_players` (lines 170-177): the stored rows whose
identifier is not in the starting lineup. -/
def getBenchPlayers (team : List Player) : List (Nat × Player) :=
  let startIds := (getStartingLineup team).map (fun r => r.2.player_id)
  (team.enum).filter (fun r => !(startIds.contains r.2.player_id))

theorem optimizeTeamCap_keyError (cap : ℚ) (players_df : List Player)
    (strategy : String) :
    optimizeTeamCap cap players_df strategy = .error (.keyError "BENCH") := rfl

/-! Basic facts about the stable insertion sort used to model the
pandas sorting primitives. -/

theorem insertLe_perm (le : α → α → Bool) (a : α) :
    ∀ l : List α, (insertLe le a l).Perm (a :: l)
  | [] => List.Perm.refl _
  | b :: l => by
    simp only [insertLe]
    split
    · exact List.Perm.refl _
    · exact ((insertLe_perm le a l).cons b).trans (List.Perm.swap a b l)

theorem sortLe_perm (le : α → α → Bool) :
    ∀ l : List α, (sortLe le l).Perm l
  | [] => List.Perm.refl _
  | a :: l =>
    (insertLe_perm le a (sortLe le l)).trans ((sortLe_perm le l).cons a)

theorem pairwise_insertLe (le : α → α → Bool)
    (htot : ∀ a b, le a b = true ∨ le b a = true)
    (htrans : ∀ a b c, le a b = true → le b c = true → le a c = true) (a : α) :
    ∀ l : List α, l.Pairwise (fun x y => le x y = true) →
      (insertLe le a l).Pairwise (fun x y => le x y = true)
  | [], _ => List.Pairwise.cons (by simp) List.Pairwise.nil
  | b :: l, hp => by
    simp only [insertLe]
    split
    · refine List.Pairwise.cons ?_ hp
      intro x hx
      rcases List.mem_cons.mp hx with rfl | hx
      · assumption
      · exact htrans a b x (by assumption) (List.rel_of_pairwise_cons hp hx)
    · refine List.Pairwise.cons ?_ (pairwise_insertLe le htot htrans a l hp.of_cons)
      intro x hx
      rcases List.mem_cons.mp ((insertLe_perm le a l).mem_iff.mp hx) with rfl | hx
      · exact (htot x b).resolve_left (by assumption)
      · exact List.rel_of_pairwise_cons hp hx

theorem pairwise_sortLe (le : α → α → Bool)
    (htot : ∀ a b, le a b = true ∨ le b a = true)
    (htrans : ∀ a b c, le a b = true → le b c = true → le a c = true) :
    ∀ l : List α, (sortLe le l).Pairwise (fun x y => le x y = true)
  | [] => List.Pairwise.nil
  | a :: l =>
    pairwise_insertLe le htot htrans a (sortLe le l)
      (pairwise_sortLe le htot htrans l)

/-! Concrete pools and the feasibility preconditions named by the
specification (§8). -/

/-- Shorthand row constructor. -/
def mkP (id : Nat) (pos : Pos) (price ps av : ℚ) : Player :=
  ⟨id, pos, price, ps, av⟩

/-- The claims' candidate-supply precondition: every category holds at
least its required minimum of candidates (spec §8). -/
def specHasMinCandidates (pool : List Player) : Prop :=
  ∀ pos ∈ LINEUP_ORDER,
    (posReq pos).min ≤ (pool.filter (fun p => p.position == pos)).length

instance (pool : List Player) : Decidable (specHasMinCandidates pool) :=
  List.decidableBAll _ _

/-- The claims' budget precondition, "sum of per-category minimum
feasible costs plus the reserve minimum feasible cost": assembled from
the source's cost computations, with the reserve count taken as
`config.BENCH_SIZE` (the spec's reserve slot count R; the optimizer
itself tries and fails to read it from the absent
`POSITION_REQUIREMENTS['BENCH']` entry). -/
def specMinCostTotal (pool : List Player) : ℚ :=
  minFeasibleCost pool .DEF (posReq .DEF).min +
  minFeasibleCost pool .MID (posReq .MID).min +
  minFeasibleCost pool .RUC (posReq .RUC).min +
  minFeasibleCost pool .FWD (posReq .FWD).min +
  benchMinCost pool BENCH_SIZE

/-- A feasible pool: 7 DEF, 9 MID, 3 RUC, 7 FWD, every row priced
100000, minimum-cost total 3000000 against the 10000000 cap. -/
def pool1 : List Player :=
  ((List.range 7).map (fun i => mkP (100 + i) .DEF 100000 (50 + i) 5)) ++
  ((List.range 9).map (fun i => mkP (200 + i) .MID 100000 (60 + i) 5)) ++
  ((List.range 3).map (fun i => mkP (300 + i) .RUC 100000 (40 + i) 5)) ++
  ((List.range 7).map (fun i => mkP (400 + i) .FWD 100000 (55 + i) 5))

/-- A budget-infeasible pool: exactly the category minimums, every row
priced 1000000, so the four category minimum costs alone sum to
22000000 > 10000000. -/
def pool3 : List Player :=
  ((List.range 6).map (fun i => mkP (10 + i) .DEF 1000000 50 5)) ++
  ((List.range 8).map (fun i => mkP (30 + i) .MID 1000000 50 5)) ++
  ((List.range 2).map (fun i => mkP (50 + i) .RUC 1000000 50 5)) ++
  ((List.range 6).map (fun i => mkP (60 + i) .FWD 1000000 50 5))

/-- A pool whose RUC category holds a single candidate, below the
required minimum of 2. -/
def pool4 : List Player :=
  ((List.range 6).map (fun i => mkP (10 + i) .DEF 100000 50 5)) ++
  ((List.range 8).map (fun i => mkP (30 + i) .MID 100000 50 5)) ++
  [mkP 50 .RUC 300000 45 5] ++
  ((List.range 6).map (fun i => mkP (60 + i) .FWD 100000 50 5))

/-- The cost total of `pool1` is 3000000, within the cap. -/
theorem pool1_cost_le_cap : specMinCostTotal pool1 ≤ SALARY_CAP := by
  have h : specMinCostTotal pool1 =
      (List.replicate 6 (100000 : ℚ)).sum + (List.replicate 8 (100000 : ℚ)).sum +
      (List.replicate 2 (100000 : ℚ)).sum + (List.replicate 6 (100000 : ℚ)).sum +
      (List.replicate 8 (100000 : ℚ)).sum := rfl
  rw [h]
  norm_num [List.sum_replicate, nsmul_eq_mul, SALARY_CAP]

/-- The cost total of `pool3` is 30000000, beyond the cap. -/
theorem pool3_cost_over_cap : SALARY_CAP < specMinCostTotal pool3 := by
  have h : specMinCostTotal pool3 =
      (List.replicate 6 (1000000 : ℚ)).sum + (List.replicate 8 (1000000 : ℚ)).sum +
      (List.replicate 2 (1000000 : ℚ)).sum + (List.replicate 6 (1000000 : ℚ)).sum +
      (List.replicate 8 (1000000 : ℚ)).sum := rfl
  rw [h]
  norm_num [List.sum_replicate, nsmul_eq_mul, SALARY_CAP]

/-- C1: on a pool satisfying both preconditions of the claim — every
category holds at least its minimum of candidates, and the summed
minimum feasible costs (reserve included) fit the salary cap — the
optimizer still returns no roster: it raises `KeyError` at the
`POSITION_REQUIREMENTS['BENCH']` read of line 48.  The claimed
postcondition (a duplicate-free roster within `SALARY_CAP`) is the
code's own documented intent ("guaranteed budget compliance", line
19), so this is a defect of the code, not of the claim. -/
theorem C1_feasible_pool_returns_no_roster :
    specHasMinCandidates pool1 ∧ specMinCostTotal pool1 ≤ SALARY_CAP ∧
    optimizeTeam pool1 "balanced" = .error (.keyError "BENCH") :=
  ⟨by decide, pool1_cost_le_cap, rfl⟩

/-- C2: for every input players DataFrame and every strategy argument,
`optimize_team` of `team_optimizer_budget_alloc.py` raises `KeyError`
before returning any roster: `config.POSITION_REQUIREMENTS` defines
only DEF, MID, RUC and FWD, and line 48 subscripts it with 'BENCH'.
This optimizer never completes a run. -/
theorem C2_optimize_team_always_raises_keyerror
    (players_df : List Player) (strategy : String) :
    optimizeTeam players_df strategy = .error (.keyError "BENCH") := rfl

/-- C3 counterexample: on a pool whose minimum feasible costs exceed
the salary cap, the run does not raise `BudgetInfeasible` (no such
error exists in the code); it raises the unrelated `KeyError`. -/
theorem C3_counterexample_no_budget_infeasible :
    SALARY_CAP < specMinCostTotal pool3 ∧
    optimizeTeam pool3 "balanced" ≠ .error Err.budgetInfeasible := by
  refine ⟨pool3_cost_over_cap, fun h => ?_⟩
  rw [show optimizeTeam pool3 "balanced" = .error (.keyError "BENCH") from rfl] at h
  exact absurd (Except.error.inj h) (by decide)

/-- C3 amended: on a budget-infeasible pool the run does fail before
any candidate is selected and leaves no partial selection state — but
with `KeyError` from the 'BENCH' config read, not with
`BudgetInfeasible`: the stored team stays `None` and the error
propagates. -/
theorem C3_infeasible_fails_before_selection
    (players_df : List Player) (strategy : String)
    (h : SALARY_CAP < specMinCostTotal players_df) :
    (optimizeStep ⟨none⟩ players_df strategy).1.selectedTeam = none ∧
    (optimizeStep ⟨none⟩ players_df strategy).2 = .error (.keyError "BENCH") :=
  ⟨rfl, rfl⟩

/-- Witness for C3: the infeasible pool `pool3` satisfies the
hypothesis and the conclusion holds there. -/
theorem C3_infeasible_fails_before_selection_witness :
    SALARY_CAP < specMinCostTotal pool3 ∧
    ((optimizeStep ⟨none⟩ pool3 "balanced").1.selectedTeam = none ∧
     (optimizeStep ⟨none⟩ pool3 "balanced").2 = .error (.keyError "BENCH")) :=
  ⟨pool3_cost_over_cap,
    C3_infeasible_fails_before_selection pool3 "balanced" pool3_cost_over_cap⟩

/-- C4 counterexample: `pool4` has one RUC candidate against a minimum
of 2, yet no `InsufficientCandidates` error is raised: the minimum
feasible cost computation (`nsmallest`) quietly sums the single
available candidate, and the run's only error is the unrelated
`KeyError`. -/
theorem C4_counterexample_no_insufficient_candidates :
    (pool4.filter (fun p => p.position == Pos.RUC)).length < (posReq .RUC).min ∧
    minFeasibleCost pool4 .RUC (posReq .RUC).min = 300000 ∧
    optimizeTeam pool4 "value" ≠ .error Err.insufficientCandidates := by
  refine ⟨by decide, ?_, fun h => ?_⟩
  · have h : minFeasibleCost pool4 .RUC (posReq .RUC).min = ([(300000 : ℚ)]).sum := rfl
    rw [h]
    simp
  · rw [show optimizeTeam pool4 "value" = .error (.keyError "BENCH") from rfl] at h
    exact absurd (Except.error.inj h) (by decide)

/-- C4 amended: when a category holds at most `n` candidates, the
minimum-feasible-cost computation for requirement `n` does not fail —
it returns the sum of all available candidates' prices. -/
theorem C4_short_category_cost_sums_all
    (df : List Player) (pos : Pos) (n : Nat)
    (h : (df.filter (fun p => p.position == pos)).length ≤ n) :
    minFeasibleCost df pos n =
      ((df.filter (fun p => p.position == pos)).map Player.price).sum := by
  unfold minFeasibleCost
  have hperm : (sortPriceAsc (df.filter (fun p => p.position == pos))).Perm
      (df.filter (fun p => p.position == pos)) :=
    sortLe_perm _ _
  rw [List.take_of_length_le (le_trans (le_of_eq hperm.length_eq) h)]
  exact (hperm.map Player.price).sum_eq

/-- Witness for C4: the RUC category of `pool4` is short and its
minimum feasible cost is the sum over all (one) of its candidates. -/
theorem C4_short_category_cost_sums_all_witness :
    (pool4.filter (fun p => p.position == Pos.RUC)).length ≤ (posReq .RUC).min ∧
    minFeasibleCost pool4 .RUC (posReq .RUC).min =
      ((pool4.filter (fun p => p.position == Pos.RUC)).map Player.price).sum :=
  ⟨by decide, C4_short_category_cost_sums_all pool4 .RUC (posReq .RUC).min (by decide)⟩

/-- Sample row used for the Objective Selector claims. -/
def p5 : Player := mkP 1 .MID 200000 80 50

/-- C5 counterexample: the unrecognised strategy name "typo" does not
fail with `InvalidStrategy` (no such error exists in the code); the
selector silently gives it the balanced objective
0.7·predicted + 0.3·adjusted = 71 for `p5`, and the run's only error
is the unrelated `KeyError`. -/
theorem C5_counterexample_unknown_strategy_not_rejected :
    objective "typo" p5 = objective "balanced" p5 ∧
    objective "typo" p5 = 71 ∧
    optimizeTeam [p5] "typo" ≠ .error Err.invalidStrategy := by
  refine ⟨rfl, ?_, fun h => ?_⟩
  · have h : objective "typo" p5 = (80 : ℚ) * 0.7 + 50 * 0.3 := rfl
    rw [h]
    norm_num
  · rw [show optimizeTeam [p5] "typo" = .error (.keyError "BENCH") from rfl] at h
    exact absurd (Except.error.inj h) (by decide)

/-- C5 amended: every strategy name other than the two explicitly
recognised ones, 'value' and 'high_score' — including 'max_score',
'balanced' itself and arbitrary unknown names — takes the `else`
branch and receives the balanced objective.  The selector is a pure
function of the row: deterministic and side-effect-free (the source
works on `players_df.copy()`). -/
theorem C5_unknown_strategy_gets_balanced
    (strategy : String) (p : Player)
    (h₁ : strategy ≠ "value") (h₂ : strategy ≠ "high_score") :
    objective strategy p = objective "balanced" p := by
  unfold objective
  rw [if_neg h₁, if_neg h₂, if_neg (by decide), if_neg (by decide)]

/-- Witness for C5: the unknown name "typo" satisfies both hypotheses
and is objectively identical to 'balanced' on `p5`. -/
theorem C5_unknown_strategy_gets_balanced_witness :
    ("typo" ≠ "value") ∧ ("typo" ≠ "high_score") ∧
    objective "typo" p5 = objective "balanced" p5 :=
  ⟨by decide, by decide,
    C5_unknown_strategy_gets_balanced "typo" p5 (by decide) (by decide)⟩

/-! The Reserve Filler (C6). -/

/-- If the counts dict has no 'BENCH' key, the first reserve loop can
only return successfully without having changed the selection state:
any acceptance raises `KeyError` at the counter update of line 112. -/
theorem benchLoop1_ok_unchanged (n : Nat) (l : List Player) :
    ∀ (bc : Nat) (bb : ℚ) (st : RunState) (out : Nat × ℚ × RunState),
      dictIncr "BENCH" st.counts = none →
      benchLoop1 n l bc bb st = .ok out → out.2.2 = st := by
  induction l with
  | nil =>
    intro bc bb st out hkey hok
    simp only [benchLoop1] at hok
    injection hok with h
    rw [← h]
  | cons p rest ih =>
    intro bc bb st out hkey hok
    simp only [benchLoop1] at hok
    by_cases hc : bc < n ∧ p.price ≤ bb
    · rw [if_pos hc, hkey] at hok
      exact Except.noConfusion hok
    · rw [if_neg hc] at hok
      exact ih _ _ _ _ hkey hok

/-- Same for the second (cheapest-first) reserve loop of lines
119-127, whose acceptance update at line 124 is the same subscript. -/
theorem benchLoop2_ok_unchanged (n : Nat) (l : List Player) :
    ∀ (bc : Nat) (bb : ℚ) (st : RunState) (out : Nat × ℚ × RunState),
      dictIncr "BENCH" st.counts = none →
      benchLoop2 n l bc bb st = .ok out → out.2.2 = st := by
  induction l with
  | nil =>
    intro bc bb st out hkey hok
    simp only [benchLoop2] at hok
    injection hok with h
    rw [← h]
  | cons p rest ih =>
    intro bc bb st out hkey hok
    simp only [benchLoop2] at hok
    by_cases hc : bc < n ∧ p.price ≤ bb
    · rw [if_pos hc, hkey] at hok
      exact Except.noConfusion hok
    · rw [if_neg hc] at hok
      by_cases hc2 : bc ≥ n
      · rw [if_pos hc2] at hok
        injection hok with h
        rw [← h]
      · rw [if_neg hc2] at hok
        exact ih _ _ _ _ hkey hok

/-- When at least one reserve slot is open and the first remaining row
is affordable, the first reserve loop raises `KeyError` immediately:
the acceptance appends the row and then increments the absent 'BENCH'
counter. -/
theorem benchLoop1_first_accept_keyerror (n : Nat) (p : Player)
    (rest : List Player) (bc : Nat) (bb : ℚ) (st : RunState)
    (hn : bc < n) (hp : p.price ≤ bb)
    (hkey : dictIncr "BENCH" st.counts = none) :
    benchLoop1 n (p :: rest) bc bb st = .error (.keyError "BENCH") := by
  simp only [benchLoop1]
  rw [if_pos ⟨hn, hp⟩, hkey]

/-- The Reserve Filler run as a whole raises `KeyError` whenever the
entry state has the four-key counts dict, at least one reserve slot is
open, and any affordable unselected candidate remains. -/
theorem phase2_accept_keyerror (cap : ℚ) (n : Nat) (df : List Player)
    (st : RunState) (p : Player) (rest : List Player)
    (hkey : dictIncr "BENCH" st.counts = none)
    (hn : 0 < n)
    (hsort : sortByDesc Player.adjusted_value
        (df.filter (fun r =>
          !((st.selected.map Player.player_id).contains r.player_id))) = p :: rest)
    (hp : p.price ≤ cap - st.total_spent) :
    phase2 cap n df st = .error (.keyError "BENCH") := by
  simp only [phase2]
  rw [hsort, benchLoop1_first_accept_keyerror n p rest 0 _ st hn hp hkey]

/-- The remaining pool used for the C6 counterexample: ten identically
priced DEF rows in descending adjusted-value order. -/
def df6 : List Player :=
  mkP 500 .DEF 100000 20 20 ::
    [mkP 501 .DEF 100000 20 19, mkP 502 .DEF 100000 20 18,
     mkP 503 .DEF 100000 20 17, mkP 504 .DEF 100000 20 16,
     mkP 505 .DEF 100000 20 15, mkP 506 .DEF 100000 20 14,
     mkP 507 .DEF 100000 20 13, mkP 508 .DEF 100000 20 12,
     mkP 509 .DEF 100000 20 11]

/-- C6 counterexample: at an entry state from which the eight reserve
slots are perfectly fillable — ten unselected DEF rows at 100000 each,
full budget remaining, DEF count 0 against a maximum of 9 — the
reserve phase of `team_optimizer_budget_alloc.py` does not fill them
under the category-maximum and budget constraints: it raises
`KeyError` at its very first acceptance (line 112).  (Its acceptance
tests at lines 108 and 120 also contain no per-category maximum check
at all, unlike the `team_optimizer.py` variant.) -/
theorem C6_counterexample_reserve_phase_crashes :
    (df6.all (fun p => decide (p.price = 100000) && (p.position == Pos.DEF)) = true) ∧
    BENCH_SIZE ≤ df6.length ∧
    (8 : ℚ) * 100000 ≤ SALARY_CAP - (0 : ℚ) ∧
    phase2 SALARY_CAP BENCH_SIZE df6 ⟨[], initCounts, 0⟩ =
      .error (.keyError "BENCH") :=
  ⟨by decide, by decide, by norm_num [SALARY_CAP],
    phase2_accept_keyerror SALARY_CAP BENCH_SIZE df6 ⟨[], initCounts, 0⟩
      (mkP 500 .DEF 100000 20 20) _ (by decide) (by decide) rfl
      (by norm_num [SALARY_CAP, mkP])⟩

/-- C6 amended: what the reserve phase actually guarantees is
degenerate — whenever it returns at all (given the run's four-key
counts dict), it returns the selection state unchanged: not a single
reserve is ever successfully added, because every acceptance dies at
the 'BENCH' counter update.  Budget and bench-count are the only
acceptance tests; no per-category maximum is consulted. -/
theorem C6_reserve_phase_adds_nothing (cap : ℚ) (benchNeeded : Nat)
    (df : List Player) (st : RunState) (out : Nat × ℚ × RunState)
    (hkey : dictIncr "BENCH" st.counts = none)
    (hok : phase2 cap benchNeeded df st = .ok out) :
    out.2.2 = st := by
  simp only [phase2] at hok
  split at hok
  · exact Except.noConfusion hok
  · rename_i bc bb st' heq
    have hst' : st' = st := benchLoop1_ok_unchanged _ _ _ _ _ _ hkey heq
    by_cases hc : bc < benchNeeded
    · rw [if_pos hc] at hok
      have h2 := benchLoop2_ok_unchanged _ _ _ _ _ _
        (by rw [hst']; exact hkey) hok
      rw [h2, hst']
    · rw [if_neg hc] at hok
      injection hok with h
      rw [← h]
      exact hst'

/-- Witness for C6: on an empty remaining pool the reserve phase
returns, and indeed returns the entry state unchanged. -/
theorem C6_reserve_phase_adds_nothing_witness :
    dictIncr "BENCH" (RunState.mk [] initCounts 0).counts = none ∧
    phase2 SALARY_CAP BENCH_SIZE [] ⟨[], initCounts, 0⟩ =
      .ok (0, SALARY_CAP - (0 : ℚ), ⟨[], initCounts, 0⟩) ∧
    ((0 : Nat), SALARY_CAP - (0 : ℚ), (⟨[], initCounts, 0⟩ : RunState)).2.2 =
      (⟨[], initCounts, 0⟩ : RunState) :=
  ⟨by decide, rfl,
    C6_reserve_phase_adds_nothing SALARY_CAP BENCH_SIZE [] _ _ (by decide) rfl⟩

/-! The Roster Partitioner (C7). -/

theorem nlBefore_total (key : Player → ℚ) (a b : Nat × Player) :
    nlBefore key a b = true ∨ nlBefore key b a = true := by
  simp only [nlBefore, decide_eq_true_eq]
  rcases lt_trichotomy (key a.2) (key b.2) with h | h | h
  · exact Or.inr (Or.inl h)
  · rcases Nat.le_total a.1 b.1 with hn | hn
    · exact Or.inl (Or.inr ⟨h, hn⟩)
    · exact Or.inr (Or.inr ⟨h.symm, hn⟩)
  · exact Or.inl (Or.inl h)

theorem nlBefore_trans (key : Player → ℚ) (a b c : Nat × Player) :
    nlBefore key a b = true → nlBefore key b c = true →
    nlBefore key a c = true := by
  simp only [nlBefore, decide_eq_true_eq]
  rintro (hab | ⟨hab, hiab⟩) (hbc | ⟨hbc, hibc⟩)
  · exact Or.inl (lt_trans hbc hab)
  · exact Or.inl (by rw [← hbc]; exact hab)
  · exact Or.inl (by rw [hab]; exact hbc)
  · exact Or.inr ⟨hab.trans hbc, le_trans hiab hibc⟩

/-- The boundary behaviour of `nlargest(..., keep='first')`: among rows
of equal key, an earlier row is always kept in preference to a later
one — if the later row made the cut, so did the earlier. -/
theorem nlargestFirst_tie_earlier (key : Player → ℚ) (n : Nat)
    (rows : List (Nat × Player)) (i j : Nat) (p q : Player)
    (hij : i < j) (hscore : key p = key q)
    (hi : (i, p) ∈ rows) (hj : (j, q) ∈ nlargestFirst key n rows) :
    (i, p) ∈ nlargestFirst key n rows := by
  have hpair := pairwise_sortLe (nlBefore key) (nlBefore_total key)
    (nlBefore_trans key) rows
  have hiS : (i, p) ∈ sortLe (nlBefore key) rows :=
    (sortLe_perm _ rows).mem_iff.mpr hi
  have hsplit := List.take_append_drop n (sortLe (nlBefore key) rows)
  rw [← hsplit] at hiS
  rcases List.mem_append.mp hiS with h | h
  · exact h
  · exfalso
    rw [← hsplit] at hpair
    have hj' : (j, q) ∈ List.take n (sortLe (nlBefore key) rows) := hj
    have hcross := (List.pairwise_append.mp hpair).2.2 (j, q) hj' (i, p) h
    simp only [nlBefore, decide_eq_true_eq] at hcross
    rcases hcross with hlt | ⟨_, hle⟩
    · rw [hscore] at hlt
      exact lt_irrefl _ hlt
    · omega

/-- C7 amended: the active/reserve split of `get_starting_lineup` is
determined solely by the final per-category ranking by
`predicted_score`, independently of which fill phase produced each row
— but ties are broken by row order in the stored team (DataFrame
index, i.e. selection order), not by lower price and identifier: if a
later-row candidate of the same category and equal predicted value is
active, every earlier tied candidate is active as well. -/
theorem C7_partition_by_score_ties_by_row_order
    (team : List Player) (i j : Nat) (p q : Player)
    (hij : i < j)
    (hip : (i, p) ∈ team.enum)
    (hpos : p.position = q.position)
    (hscore : p.predicted_score = q.predicted_score)
    (hjq : (j, q) ∈ getStartingLineup team) :
    (i, p) ∈ getStartingLineup team := by
  unfold getStartingLineup at hjq ⊢
  rcases List.mem_flatten.mp hjq with ⟨blk, hblk, hjblk⟩
  rcases List.mem_map.mp hblk with ⟨pos, hposmem, rfl⟩
  have hqpos : q.position = pos := by
    have hm := List.mem_filter.mp
      ((sortLe_perm _ _).mem_iff.mp (List.mem_of_mem_take hjblk))
    simpa using hm.2
  have hipf : (i, p) ∈ (team.enum).filter (fun r => r.2.position == pos) :=
    List.mem_filter.mpr ⟨hip, by simp [hpos, hqpos]⟩
  have hmem := nlargestFirst_tie_earlier Player.predicted_score
    (posReq pos).on_field _ i j p q hij hscore hipf hjblk
  exact List.mem_flatten.mpr ⟨_, List.mem_map.mpr ⟨pos, hposmem, rfl⟩, hmem⟩

/-- A seven-row DEF team with a predicted-score tie at the active
boundary: rows 6 and 7 are tied at 50, the pricier one (id 6, price
500000) sits earlier in the team than the cheaper one (id 7, price
100000). -/
def team7 : List Player :=
  [mkP 1 .DEF 200000 100 5, mkP 2 .DEF 200000 100 5, mkP 3 .DEF 200000 100 5,
   mkP 4 .DEF 200000 100 5, mkP 5 .DEF 200000 100 5,
   mkP 6 .DEF 500000 50 5, mkP 7 .DEF 100000 50 5]

/-- C7 counterexample: at the tie on the DEF active boundary of
`team7` the claimed price tie-break fails — the pricier earlier row
(id 6) is classified active and the cheaper later row (id 7) reserve,
because `nlargest` keeps the first row among ties. -/
theorem C7_counterexample_price_not_tiebreak :
    (mkP 6 .DEF 500000 50 5).predicted_score =
      (mkP 7 .DEF 100000 50 5).predicted_score ∧
    (mkP 7 .DEF 100000 50 5).price < (mkP 6 .DEF 500000 50 5).price ∧
    (6 ∈ (getStartingLineup team7).map (fun r => r.2.player_id)) ∧
    (7 ∉ (getStartingLineup team7).map (fun r => r.2.player_id)) ∧
    (7 ∈ (getBenchPlayers team7).map (fun r => r.2.player_id)) :=
  ⟨rfl, by decide, by decide, by decide, by decide⟩

/-- A two-row RUC team with both rows tied, both inside the active
quota. -/
def team7w : List Player := [mkP 21 .RUC 100 30 1, mkP 22 .RUC 100 30 1]

/-- Witness for C7: in `team7w` the later tied row is active, and the
theorem places the earlier tied row in the lineup as well. -/
theorem C7_partition_by_score_ties_by_row_order_witness :
    (0 < 1) ∧ ((0, mkP 21 .RUC 100 30 1) ∈ team7w.enum) ∧
    ((mkP 21 .RUC 100 30 1).position = (mkP 22 .RUC 100 30 1).position) ∧
    ((mkP 21 .RUC 100 30 1).predicted_score =
      (mkP 22 .RUC 100 30 1).predicted_score) ∧
    ((1, mkP 22 .RUC 100 30 1) ∈ getStartingLineup team7w) ∧
    ((0, mkP 21 .RUC 100 30 1) ∈ getStartingLineup team7w) :=
  ⟨by decide, by decide, rfl, rfl, by decide,
    C7_partition_by_score_ties_by_row_order team7w 0 1
      (mkP 21 .RUC 100 30 1) (mkP 22 .RUC 100 30 1) (by decide)
      (by decide) rfl rfl (by decide)⟩

/-! The Budget Planner's fate (C8) and cap variation (C9, C10). -/

/-- C8: the Budget Planner never assigns any spending ceiling: for
every cap and pool it raises `KeyError` computing the reserve minimum
feasible cost (line 48), before the ceilings of lines 55-61 — whose
dict literal is exactly the claimed formula, minimum feasible cost
plus the fixed buffer share 0.35/0.25/0.20/0.15/0.05 — can be built. -/
theorem C8_planner_never_assigns_ceilings (cap : ℚ) (df : List Player) :
    budgetPlanner cap df = .error (.keyError "BENCH") := rfl

/-- A one-row pool for the budget-monotonicity counterexample. -/
def pool9 : List Player := [mkP 1 .MID 100000 60 6]

/-- C9 counterexample: with the pool and strategy fixed and the two
caps ordered, neither run produces an active subset whose objective
total could be compared — both fail with `KeyError` and return no
roster. -/
theorem C9_counterexample_no_roster_at_either_cap :
    SALARY_CAP ≤ 2 * SALARY_CAP ∧
    optimizeTeamCap SALARY_CAP pool9 "value" = .error (.keyError "BENCH") ∧
    optimizeTeamCap (2 * SALARY_CAP) pool9 "value" = .error (.keyError "BENCH") :=
  ⟨by norm_num [SALARY_CAP], rfl, rfl⟩

/-- C9 amended: the budget cap has no effect whatsoever on the
outcome: for a fixed pool and strategy the run result is the same at
every cap (always the same `KeyError`, never a roster), so in
particular raising the cap never decreases anything. -/
theorem C9_cap_has_no_effect_on_outcome (players_df : List Player)
    (strategy : String) (cap₁ cap₂ : ℚ) :
    optimizeTeamCap cap₁ players_df strategy =
      optimizeTeamCap cap₂ players_df strategy := rfl

/-- A three-row RUC team, all tied on predicted score, with row order
deliberately against identifier order (9 before 3 before 4). -/
def team10 : List Player :=
  [mkP 9 .RUC 100 40 1, mkP 3 .RUC 100 40 1, mkP 4 .RUC 100 40 1]

/-- C10 counterexample: a run on identical inputs produces no roster
at all (so no "identical rosters" exist to compare), and the one
tie-sensitive ranking of the codebase, the partitioner, breaks ties by
row order and not by identifier: with three tied RUC rows and an
active quota of 2, id 9 (earliest row) is kept and id 4 is dropped,
although 4 < 9. -/
theorem C10_counterexample_no_id_tiebreak :
    (optimizeStep ⟨none⟩ team10 "balanced").2 = .error (.keyError "BENCH") ∧
    (9 ∈ (getStartingLineup team10).map (fun r => r.2.player_id)) ∧
    (4 ∉ (getStartingLineup team10).map (fun r => r.2.player_id)) :=
  ⟨rfl, by decide, by decide⟩

/-- C10 amended: two runs of the allocator on identical (pool,
strategy) inputs do behave identically — a second call returns the
same result as the first and leaves the same object state, and the
result does not depend on the prior stored team; in this variant both
runs raise the same `KeyError` and neither stores a roster.
Determinism owes nothing to an identifier tie-break, which the code
does not contain. -/
theorem C10_second_run_identical (o : Optimizer) (players_df : List Player)
    (strategy : String) :
    optimizeStep (optimizeStep o players_df strategy).1 players_df strategy =
      optimizeStep o players_df strategy ∧
    (optimizeStep o players_df strategy).2 =
      (optimizeStep ⟨none⟩ players_df strategy).2 :=
  ⟨rfl, rfl⟩

end Supercoach
